import Mathlib

/-!
Verification of the SitemapSageAI core against its specification.

The definitions below are a shallow embedding of the Python source:
  * `sitemap_analyzer.py` — `parse_sitemap`, `extract_path_components`,
    `analyze_sitemap_structure` (and the XML-declaration cleanup at the top of
    `parse_sitemap`);
  * `openai_client.py` — `get_mock_clusters` and the normalization loop of
    `identify_topical_clusters`.

Machine integers are modelled as `Nat`/`Int` (Python integers are unbounded),
Python `float` averages as `ℚ`, fallible operations as `Option`, and the
external fetch/generate capabilities as explicit function parameters.
-/

namespace SitemapSage

/-! ## Python string helpers -/

/-- Model of Python `str.strip()` restricted to ASCII whitespace (the inputs of
interest are XML text nodes, where only space, tab, CR and LF occur). -/
def pyStrip (s : String) : String :=
  ⟨((s.data.dropWhile Char.isWhitespace).reverse.dropWhile Char.isWhitespace).reverse⟩

/-- Characters allowed in a URL scheme after the leading letter
(`urllib.parse.scheme_chars`). -/
def isSchemeChar (c : Char) : Bool :=
  c.isAlpha || c.isDigit || c = '+' || c = '-' || c = '.'

/-- ASCII model of the regex class `\w` (letter, digit or underscore). -/
def isWordChar (c : Char) : Bool :=
  c.isAlphanum || c = '_'

/-! ## `urllib.parse.urlparse`, netloc and path

`urlsplit` first removes tab/CR/LF anywhere in the URL and strips leading and
trailing C0-control-or-space characters, then peels off the scheme, the netloc
(after `//`, up to the first `/`, `?` or `#`), the fragment (after the first
`#`) and the query (after the first `?`).  `urlparse` additionally splits `;`
parameters off the last path segment when the scheme uses parameters.  We do
not model the `ValueError` CPython raises for unbalanced brackets in a netloc;
no claim concerns such inputs. -/

/-- Removal of `\t`, `\r`, `\n` anywhere in the URL (urllib's unsafe bytes). -/
def removeUnsafeChars (cs : List Char) : List Char :=
  cs.filter (fun c => c ≠ '\t' && c ≠ '\r' && c ≠ '\n')

/-- Strip leading and trailing C0-control-or-space characters (urllib). -/
def stripC0 (cs : List Char) : List Char :=
  ((cs.dropWhile (fun c => c.val ≤ 32)).reverse.dropWhile (fun c => c.val ≤ 32)).reverse

/-- Split the scheme off a URL, returning `(lower-cased scheme, remainder)`;
the scheme must be a leading ASCII letter followed by scheme characters up to
the first `:`, otherwise the URL is left whole with an empty scheme. -/
def splitScheme (cs : List Char) : List Char × List Char :=
  match cs.findIdx? (· = ':') with
  | none => ([], cs)
  | some i =>
    if 0 < i ∧ (cs.headD ' ').isAlpha ∧ ((cs.take i).drop 1).all isSchemeChar then
      ((cs.take i).map Char.toLower, cs.drop (i + 1))
    else
      ([], cs)

/-- Split the netloc off the remainder: present only after a leading `//`,
extending to the first `/`, `?` or `#`. -/
def splitNetloc (cs : List Char) : List Char × List Char :=
  if cs.take 2 = ['/', '/'] then
    let rest := cs.drop 2
    let netloc := rest.takeWhile (fun c => c ≠ '/' && c ≠ '?' && c ≠ '#')
    (netloc, rest.drop netloc.length)
  else
    ([], cs)

/-- Cut a character list at the first occurrence of `c` (keeping the part
before it), as in `s.split(c, 1)[0]`. -/
def cutAtFirst (cs : List Char) (c : Char) : List Char :=
  cs.takeWhile (· ≠ c)

/-- Schemes for which `urlparse` splits `;parameters` off the path
(`urllib.parse.uses_params`, the ones with non-empty names). -/
def usesParams : List (List Char) :=
  [[], "ftp".data, "hdl".data, "prospero".data, "http".data, "imap".data,
   "https".data, "shttp".data, "rtsp".data, "rtspu".data, "sip".data,
   "sips".data, "mms".data, "sftp".data, "tel".data]

/-- Model of `urllib.parse._splitparams` applied to a path: drop everything
from the first `;` at or after the last `/` (or the first `;` at all when the
path has no `/`). -/
def splitParamsPath (p : List Char) : List Char :=
  if '/' ∈ p then
    let r := p.length - 1 - (p.reverse.findIdx (· = '/'))
    match (p.drop r).findIdx? (· = ';') with
    | none => p
    | some k => p.take (r + k)
  else
    cutAtFirst p ';'

/-- Scheme, netloc and path of a URL per `urllib.parse.urlparse` (the query,
fragment and parameter components are discarded; the analyzer only reads
`.netloc` and `.path`). -/
def pyUrlparse (url : String) : List Char × List Char × List Char :=
  let cs := removeUnsafeChars (stripC0 url.data)
  let (scheme, rest) := splitScheme cs
  let (netloc, rest2) := splitNetloc rest
  let path := cutAtFirst (cutAtFirst rest2 '#') '?'
  let path := if scheme ∈ usesParams ∧ ';' ∈ path then splitParamsPath path else path
  (scheme, netloc, path)

/-- The `netloc` component of `urlparse(url)`. -/
def urlparse_netloc (url : String) : String :=
  ⟨(pyUrlparse url).2.1⟩

/-- The `path` component of `urlparse(url)`. -/
def urlparse_path (url : String) : String :=
  ⟨(pyUrlparse url).2.2⟩

/-! ## `extract_path_components` (sitemap_analyzer.py lines 280-291) -/

/-- Model of `re.sub(r'\.\w+$', '', path)`: remove the leftmost match of a dot
followed by word characters running to the end of the string.  Such a match
necessarily starts at the last dot of the string. -/
def stripExtFromEnd : List Char → List Char
  | [] => []
  | c :: rest =>
    if c = '.' ∧ rest ≠ [] ∧ rest.all isWordChar then []
    else c :: stripExtFromEnd rest

/-- Model of `str.split('/')`: split at every `/`, keeping empty pieces
(Python's behavior for a one-character separator). -/
def splitOnSlash : List Char → List (List Char)
  | [] => [[]]
  | c :: rest =>
    let r := splitOnSlash rest
    if c = '/' then [] :: r
    else (c :: r.headD []) :: r.tail

/-- Embedding of `extract_path_components`: take the URL's path, strip one
trailing extension-like suffix, split on `/` and keep non-empty segments. -/
def extract_path_components (url : String) : List String :=
  let path := stripExtFromEnd (urlparse_path url).data
  ((splitOnSlash path).map (fun cs => (⟨cs⟩ : String))).filter (· ≠ "")

/-! ## `analyze_sitemap_structure` (sitemap_analyzer.py lines 293-351) -/

/-- A parsed sitemap URL record.  `loc` is optional to model dictionaries that
lack the key (the analyzer reads it with `.get('loc', '')`). -/
structure URLRecord where
  loc : Option String
  lastmod : Option String
  changefreq : Option String
  priority : Option String
  deriving DecidableEq

/-- Increment the tally of key `k` in an insertion-ordered association list,
the model of `d[k] = d.get(k, 0) + 1` on a Python dict. -/
def bump {α : Type} [DecidableEq α] : List (α × Nat) → α → List (α × Nat)
  | [], k => [(k, 1)]
  | (k', v) :: rest, k =>
    if k' = k then (k', v + 1) :: rest else (k', v) :: bump rest k

/-- Value of key `k` in a tally list, `0` when absent. -/
def lookupD {α : Type} [DecidableEq α] (m : List (α × Nat)) (k : α) : Nat :=
  match m.find? (fun p => p.1 = k) with
  | some p => p.2
  | none => 0

/-- Sum of the tallies of an association list, `sum(d.values())`. -/
def sumVals {α : Type} (m : List (α × Nat)) : Nat :=
  (m.map (fun p => p.2)).sum

/-- Weighted sum `sum(depth * count for depth, count in d.items())`. -/
def wsum (m : List (Nat × Nat)) : Nat :=
  (m.map (fun p => p.1 * p.2)).sum

/-- The key the analyzer tallies a record's domain under. -/
def domainOf (r : URLRecord) : String :=
  urlparse_netloc (r.loc.getD "")

/-- The path depth the analyzer computes for a record. -/
def depthOf (r : URLRecord) : Nat :=
  (extract_path_components (r.loc.getD "")).length

/-- One iteration of the analyzer's loop over records, updating the domain and
depth tallies. -/
def analyzeStep (st : List (String × Nat) × List (Nat × Nat)) (r : URLRecord) :
    List (String × Nat) × List (Nat × Nat) :=
  (bump st.1 (domainOf r), bump st.2 (depthOf r))

/-- Model of `max(domains.items(), key=lambda x: x[1])[0]`: the first key of
maximal tally in insertion order (Python's `max` keeps the earlier of ties). -/
def maxByVal : List (String × Nat) → Option String
  | [] => none
  | p :: rest => some ((rest.foldl (fun best q => if q.2 > best.2 then q else best) p).1)

/-- The statistics record produced by `analyze_sitemap_structure`.  The
`has_lastmod`/`newest_page`/`oldest_page` recency fields are omitted: no claim
concerns them.  `avg_depth` (a Python float) is modelled as an exact rational;
its numerator and denominator are small integers, where double arithmetic is
exact. -/
structure SitemapStats where
  total_urls : Nat
  domains : List (String × Nat)
  main_domain : Option String
  avg_depth : ℚ
  depth_distribution : List (Nat × Nat)

/-- Embedding of `analyze_sitemap_structure`. -/
def analyze_sitemap_structure (urls : List URLRecord) : SitemapStats :=
  let st := urls.foldl analyzeStep ([], [])
  { total_urls := urls.length
    domains := st.1
    main_domain := maxByVal st.1
    avg_depth := if urls.length > 0 then ((wsum st.2 : ℚ) / (urls.length : ℚ)) else 0
    depth_distribution := st.2 }

/-! ## Clusters (openai_client.py) -/

/-- A `{headline, description}` article suggestion. -/
structure ArticleIdea where
  headline : String
  description : String
  deriving DecidableEq

/-- A topical cluster as produced by `get_mock_clusters` or by the
normalization loop of `identify_topical_clusters`. -/
structure Cluster where
  title : String
  description : String
  count : Int
  examples : List String
  seo_significance : String
  article_ideas : List ArticleIdea
  deriving DecidableEq

/-- Model of `max(1, int(url_count * frac))` for the literal fractions 0.3,
0.25, 0.1, 0.15, 0.05 of `get_mock_clusters`, as the exact rational floor.
Python evaluates `url_count * 0.3` in binary floating point, which can land one
below the exact product (for example `int(10 * 0.3) == 2`); the claims proved
below do not depend on that one-ulp difference. -/
def fracCount (urlCount num den : Nat) : Int :=
  max 1 ((urlCount * num / den : Nat) : Int)

/-- The five hard-coded clusters of `get_mock_clusters` (openai_client.py
lines 74-220), with the example URLs interpolated from `domain`. -/
def commonClusters (domain : String) (urlCount : Nat) : List Cluster :=
  [{ title := "Product Pages"
     description := "Pages focused on products or services offered by the website"
     count := fracCount urlCount 3 10
     examples := [domain ++ "/products/product-1", domain ++ "/services/main-service",
                  domain ++ "/shop/featured"]
     seo_significance := "Critical for conversions and showing up in product-related searches"
     article_ideas :=
       [⟨"10 Ways Our Products Can Solve Your Everyday Problems",
         "Practical applications and solutions provided by the products"⟩,
        ⟨"Behind the Scenes: How Our Products Are Made",
         "A detailed look at the manufacturing process and quality control"⟩,
        ⟨"Customer Success Stories: Real Results with Our Products",
         "Case studies and testimonials from satisfied customers"⟩,
        ⟨"Product Comparison: How Our Offerings Stand Out from Competitors",
         "Detailed comparison of features, benefits, and value"⟩,
        ⟨"Seasonal Guide: Best Products for Each Time of Year",
         "Recommendations tailored to seasonal needs and trends"⟩] },
   { title := "Blog Articles"
     description := "Informational content providing value to visitors"
     count := fracCount urlCount 1 4
     examples := [domain ++ "/blog/latest-post", domain ++ "/articles/industry-news",
                  domain ++ "/news/updates"]
     seo_significance := "Builds authority, targets informational keywords, and creates link-worthy content"
     article_ideas :=
       [⟨"Industry Trends: What to Watch for in the Coming Year",
         "Analysis of emerging trends and predictions for the industry"⟩,
        ⟨"Expert Interview Series: Insights from Industry Leaders",
         "Interviews with thought leaders sharing valuable perspectives"⟩,
        ⟨"Complete Beginner\x27s Guide to Understanding Our Industry",
         "Educational content breaking down complex topics for newcomers"⟩,
        ⟨"Problem-Solving Guide: Common Challenges and Solutions",
         "Practical advice for addressing frequently encountered issues"⟩,
        ⟨"Data-Driven Insights: Key Statistics That Shape Our Field",
         "Analysis of important statistics and what they mean for the future"⟩] },
   { title := "About Pages"
     description := "Company information, team, and mission pages"
     count := fracCount urlCount 1 10
     examples := [domain ++ "/about-us", domain ++ "/team", domain ++ "/mission"]
     seo_significance := "Builds trust and provides context for search engines about the site\x27s purpose"
     article_ideas :=
       [⟨"Our Journey: From Startup to Industry Leader",
         "The story of the company\x27s growth and key milestones"⟩,
        ⟨"Meet the Team: The Experts Behind Our Success",
         "Profiles of key team members and their expertise"⟩,
        ⟨"Our Core Values: How They Shape Everything We Do",
         "Explanation of company values and their practical application"⟩,
        ⟨"Corporate Social Responsibility: Making a Difference",
         "Overview of initiatives and commitment to social causes"⟩,
        ⟨"A Day in the Life: Behind the Scenes at Our Company",
         "Insight into company culture and daily operations"⟩] },
   { title := "Support & FAQ"
     description := "Customer service, help articles, and frequently asked questions"
     count := fracCount urlCount 3 20
     examples := [domain ++ "/support", domain ++ "/faq", domain ++ "/help/getting-started"]
     seo_significance := "Targets long-tail support queries and improves user experience metrics"
     article_ideas :=
       [⟨"Comprehensive Troubleshooting Guide for Common Issues",
         "Step-by-step solutions for frequently encountered problems"⟩,
        ⟨"How to Get the Most Out of Our Customer Support Resources",
         "Guide to utilizing all available support channels efficiently"⟩,
        ⟨"Expert Tips: Advanced Solutions for Power Users",
         "Advanced troubleshooting and optimization techniques"⟩,
        ⟨"Self-Service Support: Resolving Issues Without Waiting",
         "Resources and methods for quick self-service problem resolution"⟩,
        ⟨"Understanding Our Guarantee and Return Policy",
         "Clear explanation of customer protection policies and procedures"⟩] },
   { title := "Contact Information"
     description := "Ways to reach the company, including contact forms and location details"
     count := fracCount urlCount 1 20
     examples := [domain ++ "/contact", domain ++ "/locations", domain ++ "/directions"]
     seo_significance := "Essential for local SEO and improving user experience"
     article_ideas :=
       [⟨"The Best Ways to Contact Us for Different Needs",
         "Guide to choosing the most effective contact method for various situations"⟩,
        ⟨"Visit Our Locations: What to Expect and Prepare",
         "Information about physical locations and planning your visit"⟩,
        ⟨"Meet Our Customer Service Team: The Faces Behind the Support",
         "Introduction to customer service representatives and their expertise"⟩,
        ⟨"How We\x27ve Improved Our Response Times and Customer Satisfaction",
         "Changes and improvements to the customer service experience"⟩,
        ⟨"International Customer? Here\x27s How to Reach Us Across Time Zones",
         "Special contact information and considerations for international customers"⟩] }]

/-- Embedding of `get_mock_clusters` (openai_client.py lines 72-231).
`random.sample(common_clusters, min(5, len(common_clusters)))` draws all five
clusters in an order determined by the global random generator; that draw is
made explicit as the index list `perm`, which for a faithful run is a
permutation of `[0, 1, 2, 3, 4]`.  The counts of the drawn clusters are then
rescaled by `max(1, int(count * url_count / total_allocated))`; the `int`
truncation (toward zero, equal to floor on these non-negative values) is
modelled by integer division. -/
def get_mock_clusters (domain : String) (urlCount : Nat) (perm : List Nat) : List Cluster :=
  let common := commonClusters domain urlCount
  let selected := perm.filterMap (fun i => common.get? i)
  let totalAllocated : Int := (selected.map (fun c => c.count)).sum
  if totalAllocated > 0 then
    selected.map (fun c => { c with count := max 1 (c.count * (urlCount : Int) / totalAllocated) })
  else
    selected

/-- A raw `count` field as returned by the generation capability: a JSON
number, a JSON string, or absent from the cluster object. -/
inductive RawCount where
  | num (n : Int)
  | str (s : String)
  | absent
  deriving DecidableEq

/-- Model of `re.search(r'\d+', s)`: the first maximal run of decimal digits
of `s`, or `none` when `s` has no digit. -/
def firstDigitRun : List Char → Option (List Char)
  | [] => none
  | c :: rest =>
    if c.isDigit then some (c :: rest.takeWhile Char.isDigit)
    else firstDigitRun rest

/-- Numeric value of a digit string, as `int()` computes it. -/
def digitsToNat (ds : List Char) : Nat :=
  ds.foldl (fun acc c => acc * 10 + (c.toNat - '0'.toNat)) 0

/-- Embedding of the `count` normalization of `identify_topical_clusters`
(openai_client.py lines 345-359): an absent count defaults to `0`; a string
count becomes the value of its first digit run, or `0` when it has none; a
numeric count is kept. -/
def normalizeCount : RawCount → Int
  | .absent => 0
  | .num n => n
  | .str s =>
    match firstDigitRun s.data with
    | some ds => (digitsToNat ds : Int)
    | none => 0

/-- A raw cluster object as returned by the generation capability.  A field is
`none` when the key is absent (for `examples` and `article_ideas`, also when
the value is not a list — the source treats both alike). -/
structure RawCluster where
  title : Option String
  count : RawCount
  examples : Option (List String)
  description : Option String
  seo_significance : Option String
  article_ideas : Option (List ArticleIdea)
  deriving DecidableEq

/-- Embedding of the per-cluster normalization loop of
`identify_topical_clusters` (openai_client.py lines 340-379): defaults are
substituted for every missing field, and a missing or invalid `article_ideas`
is replaced by five copies of a placeholder referencing the title. -/
def normalizeCluster (c : RawCluster) : Cluster :=
  let title := c.title.getD "Unnamed Cluster"
  { title := title
    count := normalizeCount c.count
    examples := c.examples.getD []
    description := c.description.getD "No description provided"
    seo_significance := c.seo_significance.getD "No SEO significance provided"
    article_ideas := c.article_ideas.getD
      (List.replicate 5
        ⟨"Article idea for " ++ title,
         "Suggested content based on this topical cluster"⟩) }

/-- Embedding of the response-processing section of
`identify_topical_clusters` (openai_client.py lines 334-383): a structured
response carries `some` raw cluster list when the `clusters` key is present
and is a list, `none` otherwise (replaced by the empty list); every cluster is
then normalized in place.  No merging of any kind is performed on the result.
-/
def identify_topical_clusters_process (response : Option (List RawCluster)) : List Cluster :=
  (response.getD []).map normalizeCluster

/-! ## Title similarity (spec-only)

The specification's Cluster Aggregator merges clusters across batches "via
fuzzy title matching" with a "case-insensitive sequence similarity" threshold
of 0.8.  No similarity computation exists anywhere in the source; the
definitions below are needed only to state claim C1 and follow the measure the
spec names, Python `difflib.SequenceMatcher.ratio()`: `2 * M / T` where `M` is
the total size of the matching blocks and `T` the sum of both lengths. -/

/-- Length of the longest common prefix of `a.drop i` and `b.drop j`. -/
def matchLenAt (a b : List Char) (i j : Nat) : Nat :=
  (((a.drop i).zip (b.drop j)).takeWhile (fun p => p.1 == p.2)).length

/-- Modelled from the spec: the longest matching block `(i, j, size)` between
`a` and `b`, ties broken by smallest `i`, then smallest `j` (difflib's rule).
-/
def bestMatch (a b : List Char) : Nat × Nat × Nat :=
  (List.range a.length).foldl (fun best i =>
    (List.range b.length).foldl (fun best j =>
      let k := matchLenAt a b i j
      if k > best.2.2 then (i, j, k) else best) best) (0, 0, 0)

/-- Modelled from the spec: total size of the matching blocks (difflib
`get_matching_blocks`), splitting recursively around the longest match; `fuel`
bounds the recursion and `a.length + b.length` always suffices. -/
def totalMatched : Nat → List Char → List Char → Nat
  | 0, _, _ => 0
  | fuel + 1, a, b =>
    let m := bestMatch a b
    if m.2.2 = 0 then 0
    else
      m.2.2 + totalMatched fuel (a.take m.1) (b.take m.2.1)
        + totalMatched fuel (a.drop (m.1 + m.2.2)) (b.drop (m.2.1 + m.2.2))

/-- Modelled from the spec: case-insensitive sequence-similarity ratio of two
titles (`difflib.SequenceMatcher(None, x.lower(), y.lower()).ratio()`). -/
def similarityScore (x y : String) : ℚ :=
  let a := x.data.map Char.toLower
  let b := y.data.map Char.toLower
  if a.length + b.length = 0 then 1
  else (2 * (totalMatched (a.length + b.length) a b) : ℚ) / ((a.length + b.length : Nat) : ℚ)

/-! ## String search and the XML-declaration cleanup (parse_sitemap) -/

/-- Does `pat` occur in `hay` starting at position `i`? -/
def occursAt (hay pat : List Char) (i : Nat) : Bool :=
  (hay.drop i).take pat.length == pat

/-- Scan for the first occurrence of `pat` in `hay` at or after `start`,
trying at most `fuel` positions (structural recursion on the fuel). -/
def pyFindFromAux (hay pat : List Char) : Nat → Nat → Option Nat
  | _, 0 => none
  | start, fuel + 1 =>
    if occursAt hay pat start then some start
    else pyFindFromAux hay pat (start + 1) fuel

/-- Model of Python `str.find(pat, start)`: the smallest `i ≥ start` at which
`pat` occurs in `hay`, `none` when there is no such occurrence (a fuel of
`hay.length + 1 - start` covers every candidate position). -/
def pyFindFrom (hay pat : List Char) (start : Nat) : Option Nat :=
  pyFindFromAux hay pat start (hay.length + 1 - start)

/-- Python `str.find` as an integer, `-1` when the pattern is absent. -/
def pyFindInt (hay pat : List Char) (start : Nat) : Int :=
  match pyFindFrom hay pat start with
  | some i => (i : Int)
  | none => -1

/-- Python's `in` operator on strings: substring containment. -/
def containsSub (hay pat : List Char) : Bool :=
  (pyFindFrom hay pat 0).isSome

/-- The characters of `"<?xml"`. -/
def xmlDeclMark : List Char := "<?xml".data

/-- The characters of `"?>"`. -/
def declCloseMark : List Char := "?>".data

/-- Embedding of the XML-declaration cleanup at the top of `parse_sitemap`
(sitemap_analyzer.py lines 101-107): when the content contains both `<?xml`
and `?>`, locate the end of the first declaration, search for a following
`<?xml`, and if one is found splice out everything from the end of the first
declaration through the `?>` that closes the found declaration (the slice
`content[:first_decl_end] + content[next_decl_start + content[next_decl_start:].find('?>') + 2:]`,
where an absent closing `?>` makes the inner `find` return `-1`). -/
def cleanXmlDecls (cs : List Char) : List Char :=
  if containsSub cs xmlDeclMark ∧ containsSub cs declCloseMark then
    let firstDeclEnd : Int := pyFindInt cs declCloseMark 0 + 2
    match pyFindFrom cs xmlDeclMark firstDeclEnd.toNat with
    | some n =>
      if n > 0 then
        cs.take firstDeclEnd.toNat ++
          cs.drop ((n : Int) + pyFindInt (cs.drop n) declCloseMark 0 + 2).toNat
      else cs
    | none => cs
  else cs

/-! ## `parse_sitemap` on the parsed element tree (sitemap_analyzer.py 80-271)

`ET.fromstring` itself is external C code; the embedding works on the element
tree it produces.  The recursive `fetch_sitemap` + `parse_sitemap` call made
for each child of a sitemap index goes through the network and is abstracted
as a `fetchParse` function, `none` modelling the exception path that the
source logs and skips. -/

/-- An element of the parsed XML tree (`xml.etree.ElementTree`): a tag (with
any namespace in `\x7buri\x7dtag` form), optional text content, and child
elements. -/
inductive XMLElem where
  | node (tag : String) (text : Option String) (children : List XMLElem)

/-- Tag of an element. -/
def XMLElem.tag : XMLElem → String
  | .node t _ _ => t

/-- Text content of an element (`None` when the element is empty). -/
def XMLElem.text : XMLElem → Option String
  | .node _ tx _ => tx

/-- Child elements of an element. -/
def XMLElem.children : XMLElem → List XMLElem
  | .node _ _ cs => cs

mutual
/-- All proper descendants of an element in document order (what
`findall(".//tag")` searches). -/
def descendants : XMLElem → List XMLElem
  | .node _ _ cs => descendantsList cs
/-- The elements of a list together with their descendants, document order. -/
def descendantsList : List XMLElem → List XMLElem
  | [] => []
  | c :: rest => c :: (descendants c ++ descendantsList rest)
end

/-- The sitemap-protocol namespace in ElementTree's braced form, the
resolution of the `sm:` prefix in the source's `namespaces` dict. -/
def smNamespace : String := "\x7bhttp://www.sitemaps.org/schemas/sitemap/0.9\x7d"

/-- Extract `(ns, plain_tag)` from the root tag: with a `\x7d` present,
`ns = root_tag.split('\x7d')[0] + '\x7d'` and `plain = root_tag.split('\x7d')[1]`.
-/
def splitNsTag (tag : String) : String × String :=
  if '}' ∈ tag.data then
    let before := tag.data.takeWhile (· ≠ '}')
    let rest := tag.data.drop (before.length + 1)
    (⟨before ++ ['}']⟩, ⟨rest.takeWhile (· ≠ '}')⟩)
  else ("", tag)

/-- First child of `e` bearing tag `t` (`Element.find(t)` for a plain or
braced tag). -/
def findChildTag (e : XMLElem) (t : String) : Option XMLElem :=
  e.children.find? (fun c => c.tag == t)

/-- The multi-strategy text lookup used for `loc`, `lastmod`, `changefreq` and
`priority`: try the sitemap-namespaced tag, the bare tag, then the
root-namespace tag, and succeed on the first strategy whose element exists and
has truthy (non-`None`, non-empty) text, returning that text stripped. -/
def lookupText (e : XMLElem) (ns : String) (name : String) : Option String :=
  [smNamespace ++ name, name, ns ++ name].foldl (fun acc t =>
    match acc with
    | some r => some r
    | none =>
      match findChildTag e t with
      | some el =>
        match el.text with
        | some tx => if tx ≠ "" then some (pyStrip tx) else none
        | none => none
      | none => none) none

/-- First non-empty candidate list: the source's `for path in [...]` loop that
breaks on the first `findall` returning elements. -/
def firstNonEmpty {α : Type} : List (List α) → List α
  | [] => []
  | l :: rest => if l.isEmpty then firstNonEmpty rest else l

/-- Element selection for tag `name` (`sitemap` or `url`): the paths
`.//sm:name`, `.//name`, `./name`, `.//\x7bns\x7dname`, and the `./*`
fallback to all children, first non-empty result winning. -/
def selectElements (root : XMLElem) (ns : String) (name : String) : List XMLElem :=
  firstNonEmpty
    [(descendants root).filter (fun e => e.tag == smNamespace ++ name),
     (descendants root).filter (fun e => e.tag == name),
     root.children.filter (fun e => e.tag == name),
     (descendants root).filter (fun e => e.tag == ns ++ name),
     root.children]

/-- Records contributed by one `<sitemap>` entry of an index: its truthy `loc`
is fetched and recursively parsed through `fetchParse`; an entry without a
truthy `loc`, or whose fetch/parse raises (`none`), contributes nothing. -/
def indexChildRecords (ns : String) (fetchParse : String → Option (List URLRecord))
    (e : XMLElem) : List URLRecord :=
  match lookupText e ns "loc" with
  | some t => if t ≠ "" then (fetchParse t).getD [] else []
  | none => []

/-- One `<url>` element turned into a record: `loc` is required and must be
truthy (entries without it are skipped); the other fields are optional. -/
def parseUrlElement (ns : String) (e : XMLElem) : Option URLRecord :=
  match lookupText e ns "loc" with
  | some t =>
    if t ≠ "" then
      some { loc := some t
             lastmod := lookupText e ns "lastmod"
             changefreq := lookupText e ns "changefreq"
             priority := lookupText e ns "priority" }
    else none
  | none => none

/-- Embedding of `parse_sitemap` on a parsed element tree: a root whose plain
tag contains `sitemapindex` is an index whose first 3 entries ("limit to 3 for
demo purposes") are recursively resolved and concatenated; any other root is a
regular URL set. -/
def parse_sitemap (root : XMLElem) (fetchParse : String → Option (List URLRecord)) :
    List URLRecord :=
  let p := splitNsTag root.tag
  if containsSub p.2.data "sitemapindex".data then
    ((selectElements root p.1 "sitemap").take 3).foldl
      (fun acc e => acc ++ indexChildRecords p.1 fetchParse e) []
  else
    (selectElements root p.1 "url").filterMap (parseUrlElement p.1)

/-! ## Concrete instances used by witnesses and counterexamples -/

/-- Number of positions at which `pat` occurs in `hay` (used to count how many
XML declarations remain in a cleaned document). -/
def countOccurrences (hay pat : List Char) : Nat :=
  ((List.range (hay.length + 1)).filter (fun i => occursAt hay pat i)).length

/-- A standard XML declaration, as character list. -/
def stdDecl : List Char := "<?xml version=\"1.0\"?>".data

/-- A concrete raw cluster titled "Product Pages" with count 3. -/
def rawProductPages : RawCluster :=
  { title := some "Product Pages"
    count := .num 3
    examples := some ["https://example.com/products/a"]
    description := some "d1"
    seo_significance := some "s1"
    article_ideas := some [] }

/-- A concrete raw cluster titled "Product Page" with count 2; its title is
0.96-similar to that of `rawProductPages`. -/
def rawProductPage : RawCluster :=
  { title := some "Product Page"
    count := .num 2
    examples := some ["https://example.com/products/b"]
    description := some "d2"
    seo_significance := some "s2"
    article_ideas := some [] }

/-- A concrete sitemap index with four child `<sitemap>` entries. -/
def sampleIndexRoot : XMLElem :=
  .node "sitemapindex" none
    [.node "sitemap" none [.node "loc" (some "https://example.com/s1.xml") []],
     .node "sitemap" none [.node "loc" (some "https://example.com/s2.xml") []],
     .node "sitemap" none [.node "loc" (some "https://example.com/s3.xml") []],
     .node "sitemap" none [.node "loc" (some "https://example.com/s4.xml") []]]

/-- A concrete fetch-and-parse oracle yielding one record per child URL. -/
def sampleFetch : String → Option (List URLRecord) :=
  fun s => some [⟨some s, none, none, none⟩]

/-- A concrete URL set whose three `<url>` elements all lack `<loc>`. -/
def sampleUrlSetRoot : XMLElem :=
  .node "urlset" none
    [.node "url" none [.node "lastmod" (some "2023-01-01") []],
     .node "url" none [],
     .node "url" none [.node "changefreq" (some "daily") []]]

/-! ## Helper lemmas -/

theorem sumVals_bump {α : Type} [DecidableEq α] (m : List (α × Nat)) (k : α) :
    sumVals (bump m k) = sumVals m + 1 := by
  induction m with
  | nil => simp [bump, sumVals]
  | cons p rest ih =>
    obtain ⟨k', v⟩ := p
    by_cases h : k' = k
    · simp [bump, h, sumVals]
      omega
    · simp only [bump, if_neg h, sumVals, List.map_cons, List.sum_cons]
      simp only [sumVals] at ih
      omega

theorem wsum_bump (m : List (Nat × Nat)) (k : Nat) :
    wsum (bump m k) = wsum m + k := by
  induction m with
  | nil => simp [bump, wsum]
  | cons p rest ih =>
    obtain ⟨k', v⟩ := p
    by_cases h : k' = k
    · subst h
      simp [bump, wsum]
      ring
    · simp only [bump, if_neg h, wsum, List.map_cons, List.sum_cons]
      simp only [wsum] at ih
      omega

theorem lookupD_bump_self {α : Type} [DecidableEq α] (m : List (α × Nat)) (k : α) :
    lookupD (bump m k) k = lookupD m k + 1 := by
  induction m with
  | nil => simp [bump, lookupD, List.find?]
  | cons p rest ih =>
    obtain ⟨k', v⟩ := p
    by_cases h : k' = k
    · subst h
      simp [bump, lookupD, List.find?]
    · simp only [bump, if_neg h, lookupD, List.find?]
      have hk : (decide (k' = k)) = false := by simp [h]
      simp only [hk]
      exact ih

theorem lookupD_bump_ne {α : Type} [DecidableEq α] (m : List (α × Nat)) (k' k : α)
    (h : k' ≠ k) : lookupD (bump m k') k = lookupD m k := by
  induction m with
  | nil => simp [bump, lookupD, List.find?, h]
  | cons p rest ih =>
    obtain ⟨k₀, v⟩ := p
    by_cases h0 : k₀ = k'
    · subst h0
      simp [bump, lookupD, List.find?, h]
    · simp only [bump, if_neg h0, lookupD, List.find?]
      cases hd : decide (k₀ = k) with
      | true => rfl
      | false => exact ih

theorem analyzeStep_fst (st : List (String × Nat) × List (Nat × Nat)) (r : URLRecord) :
    (analyzeStep st r).1 = bump st.1 (domainOf r) := rfl

theorem analyzeStep_snd (st : List (String × Nat) × List (Nat × Nat)) (r : URLRecord) :
    (analyzeStep st r).2 = bump st.2 (depthOf r) := rfl

theorem fold_domains_sum (urls : List URLRecord) :
    ∀ st : List (String × Nat) × List (Nat × Nat),
      sumVals (urls.foldl analyzeStep st).1 = sumVals st.1 + urls.length := by
  induction urls with
  | nil => intro st; simp
  | cons r rest ih =>
    intro st
    simp only [List.foldl_cons, List.length_cons]
    rw [ih, analyzeStep_fst, sumVals_bump]
    omega

theorem fold_depths_sum (urls : List URLRecord) :
    ∀ st : List (String × Nat) × List (Nat × Nat),
      sumVals (urls.foldl analyzeStep st).2 = sumVals st.2 + urls.length := by
  induction urls with
  | nil => intro st; simp
  | cons r rest ih =>
    intro st
    simp only [List.foldl_cons, List.length_cons]
    rw [ih, analyzeStep_snd, sumVals_bump]
    omega

theorem fold_depths_wsum (urls : List URLRecord) :
    ∀ st : List (String × Nat) × List (Nat × Nat),
      wsum (urls.foldl analyzeStep st).2 = wsum st.2 + (urls.map depthOf).sum := by
  induction urls with
  | nil => intro st; simp
  | cons r rest ih =>
    intro st
    simp only [List.foldl_cons, List.map_cons, List.sum_cons]
    rw [ih, analyzeStep_snd, wsum_bump]
    omega

theorem fold_domains_lookup (key : String) (urls : List URLRecord) :
    ∀ st : List (String × Nat) × List (Nat × Nat),
      lookupD (urls.foldl analyzeStep st).1 key
        = lookupD st.1 key + (urls.countP (fun r => domainOf r == key)) := by
  induction urls with
  | nil => intro st; simp
  | cons r rest ih =>
    intro st
    simp only [List.foldl_cons, List.countP_cons]
    rw [ih, analyzeStep_fst]
    by_cases h : domainOf r = key
    · subst h
      rw [lookupD_bump_self]
      simp
      omega
    · have hb : (domainOf r == key) = false := by simp [h]
      rw [lookupD_bump_ne _ _ _ h, hb]
      simp

theorem fold_depths_lookup (key : Nat) (urls : List URLRecord) :
    ∀ st : List (String × Nat) × List (Nat × Nat),
      lookupD (urls.foldl analyzeStep st).2 key
        = lookupD st.2 key + (urls.countP (fun r => depthOf r == key)) := by
  induction urls with
  | nil => intro st; simp
  | cons r rest ih =>
    intro st
    simp only [List.foldl_cons, List.countP_cons]
    rw [ih, analyzeStep_snd]
    by_cases h : depthOf r = key
    · subst h
      rw [lookupD_bump_self]
      simp
      omega
    · have hb : (depthOf r == key) = false := by simp [h]
      rw [lookupD_bump_ne _ _ _ h, hb]
      simp

/-! ## Claim theorems -/

/-- C4: for every non-empty URL record list, the analyzer's `avg_depth` equals
the count-weighted mean of per-URL path-segment counts — equivalently the mean
of `extract_path_components` lengths over all records, a record's depth being
the number of non-empty `/`-separated segments of its path after stripping a
single trailing extension-like suffix — and for the empty list `avg_depth` is
exactly `0`. -/
theorem avg_depth_is_mean :
    (∀ urls : List URLRecord, urls ≠ [] →
      (analyze_sitemap_structure urls).avg_depth
        = ((urls.map (fun r => ((extract_path_components (r.loc.getD "")).length : ℚ))).sum)
            / (urls.length : ℚ))
    ∧ (analyze_sitemap_structure []).avg_depth = 0 := by
  constructor
  · intro urls h
    have hlen : 0 < urls.length := List.length_pos.mpr h
    simp only [analyze_sitemap_structure, if_pos hlen]
    rw [fold_depths_wsum urls ([], [])]
    have hw : wsum ([] : List (Nat × Nat)) = 0 := rfl
    rw [hw, Nat.zero_add]
    congr 1
    rw [Nat.cast_list_sum, List.map_map]
    rfl
  · rfl

/-- Witness for C4 at a concrete one-record list. -/
theorem avg_depth_is_mean_witness :
    (analyze_sitemap_structure
        [⟨some "https://example.com/a/b.html", none, none, none⟩]).avg_depth
      = (([⟨some "https://example.com/a/b.html", none, none, none⟩] : List URLRecord).map
          (fun r => ((extract_path_components (r.loc.getD "")).length : ℚ))).sum
        / (([⟨some "https://example.com/a/b.html", none, none, none⟩] :
            List URLRecord).length : ℚ) :=
  avg_depth_is_mean.1 [⟨some "https://example.com/a/b.html", none, none, none⟩] (by simp)

/-- C5: for every URL record list, the per-domain counts produced by the
analyzer sum to `total_urls` — every record is tallied under exactly one
domain. -/
theorem domains_sum_total (urls : List URLRecord) :
    sumVals (analyze_sitemap_structure urls).domains
      = (analyze_sitemap_structure urls).total_urls := by
  simp only [analyze_sitemap_structure]
  rw [fold_domains_sum urls ([], [])]
  simp [sumVals]

/-- C9: for every URL record list, the values of the depth histogram produced
by the analyzer sum to `total_urls` — every record contributes exactly one
entry to `depth_distribution`, mirroring the domain-count invariant. -/
theorem depth_distribution_sum_total (urls : List URLRecord) :
    sumVals (analyze_sitemap_structure urls).depth_distribution
      = (analyze_sitemap_structure urls).total_urls := by
  simp only [analyze_sitemap_structure]
  rw [fold_depths_sum urls ([], [])]
  simp [sumVals]

/-- C10: the analyzer is total on records lacking `loc` (totality is by
construction of the embedding — no error case exists): such a record is keyed
under the empty-string domain with path depth `0`, and appending one to any
record list raises `total_urls`, the empty-domain tally and the depth-0 tally
each by exactly one. -/
theorem missing_loc_tallied (urls : List URLRecord) (r : URLRecord) (h : r.loc = none) :
    domainOf r = "" ∧ depthOf r = 0 ∧
    (analyze_sitemap_structure (urls ++ [r])).total_urls
      = (analyze_sitemap_structure urls).total_urls + 1 ∧
    lookupD (analyze_sitemap_structure (urls ++ [r])).domains ""
      = lookupD (analyze_sitemap_structure urls).domains "" + 1 ∧
    lookupD (analyze_sitemap_structure (urls ++ [r])).depth_distribution 0
      = lookupD (analyze_sitemap_structure urls).depth_distribution 0 + 1 := by
  have hd : domainOf r = "" := by
    unfold domainOf
    rw [h]
    rfl
  have hdep : depthOf r = 0 := by
    unfold depthOf
    rw [h]
    rfl
  refine ⟨hd, hdep, ?_, ?_, ?_⟩
  · simp [analyze_sitemap_structure]
  · simp only [analyze_sitemap_structure, List.foldl_append, List.foldl_cons, List.foldl_nil]
    rw [analyzeStep_fst, hd, lookupD_bump_self]
  · simp only [analyze_sitemap_structure, List.foldl_append, List.foldl_cons, List.foldl_nil]
    rw [analyzeStep_snd, hdep, lookupD_bump_self]

/-- Witness for C10 at a concrete list and a concrete loc-less record. -/
theorem missing_loc_tallied_witness :
    domainOf ⟨none, none, none, none⟩ = "" ∧ depthOf ⟨none, none, none, none⟩ = 0 ∧
    (analyze_sitemap_structure
        ([⟨some "https://example.com/a", none, none, none⟩] ++
          [⟨none, none, none, none⟩])).total_urls
      = (analyze_sitemap_structure
          [⟨some "https://example.com/a", none, none, none⟩]).total_urls + 1 ∧
    lookupD (analyze_sitemap_structure
        ([⟨some "https://example.com/a", none, none, none⟩] ++
          [⟨none, none, none, none⟩])).domains ""
      = lookupD (analyze_sitemap_structure
          [⟨some "https://example.com/a", none, none, none⟩]).domains "" + 1 ∧
    lookupD (analyze_sitemap_structure
        ([⟨some "https://example.com/a", none, none, none⟩] ++
          [⟨none, none, none, none⟩])).depth_distribution 0
      = lookupD (analyze_sitemap_structure
          [⟨some "https://example.com/a", none, none, none⟩]).depth_distribution 0 + 1 :=
  missing_loc_tallied [⟨some "https://example.com/a", none, none, none⟩]
    ⟨none, none, none, none⟩ rfl

/-- C2 counterexample: the fallback clusterer consults the random generator —
two valid draws of `random.sample` (two permutations of the five indices)
produce different outputs on the same input, so two runs of the fallback on
the same URL data need not yield identical cluster sets. -/
theorem mock_clusters_draw_dependent :
    List.Perm [1, 0, 2, 3, 4] [0, 1, 2, 3, 4] ∧
    get_mock_clusters "https://example.com" 100 [0, 1, 2, 3, 4]
      ≠ get_mock_clusters "https://example.com" 100 [1, 0, 2, 3, 4] := by
  constructor
  · decide
  · decide

/-- C2 amended: the fallback clusterer is deterministic given the random draw,
and across draws its output is the same up to order — for every valid draw the
produced cluster list is a permutation of the one produced by the identity
draw, so the cluster contents and counts are draw-independent and only their
order varies. -/
theorem mock_clusters_deterministic_up_to_order (domain : String) (urlCount : Nat)
    (perm : List Nat) (hp : List.Perm perm [0, 1, 2, 3, 4]) :
    List.Perm (get_mock_clusters domain urlCount perm)
      (get_mock_clusters domain urlCount [0, 1, 2, 3, 4]) := by
  simp only [get_mock_clusters]
  have hsel : List.Perm
      (perm.filterMap (fun i => (commonClusters domain urlCount).get? i))
      (([0, 1, 2, 3, 4] : List Nat).filterMap
        (fun i => (commonClusters domain urlCount).get? i)) :=
    hp.filterMap _
  have htot : ((perm.filterMap (fun i => (commonClusters domain urlCount).get? i)).map
        (fun c => c.count)).sum
      = ((([0, 1, 2, 3, 4] : List Nat).filterMap
            (fun i => (commonClusters domain urlCount).get? i)).map
          (fun c => c.count)).sum :=
    (hsel.map _).sum_eq
  rw [htot]
  split
  · exact hsel.map _
  · exact hsel

/-- Witness for the amended C2 at a concrete reversed draw. -/
theorem mock_clusters_deterministic_up_to_order_witness :
    List.Perm (get_mock_clusters "https://example.com" 100 [4, 3, 2, 1, 0])
      (get_mock_clusters "https://example.com" 100 [0, 1, 2, 3, 4]) :=
  mock_clusters_deterministic_up_to_order "https://example.com" 100 [4, 3, 2, 1, 0]
    (by decide)

theorem takeWhile_append_all (p : Char → Bool) (l b : List Char)
    (hl : l.all p = true) (hb : Option.all (fun c => !p c) b.head? = true) :
    (l ++ b).takeWhile p = l := by
  induction l with
  | nil =>
    cases b with
    | nil => rfl
    | cons c t =>
      simp only [Option.all, List.head?] at hb
      simp [List.takeWhile, Bool.not_eq_true'] at hb ⊢
      simp [hb]
  | cons x l ih =>
    simp only [List.all_cons, Bool.and_eq_true] at hl
    simp [List.takeWhile, hl.1, ih hl.2]

theorem firstDigitRun_append (a d b : List Char)
    (ha : a.all (fun c => !c.isDigit) = true) (hd : d ≠ [])
    (hdd : d.all Char.isDigit = true)
    (hb : Option.all (fun c => !c.isDigit) b.head? = true) :
    firstDigitRun (a ++ d ++ b) = some d := by
  induction a with
  | nil =>
    cases d with
    | nil => exact absurd rfl hd
    | cons c t =>
      simp only [List.all_cons, Bool.and_eq_true] at hdd
      simp only [List.nil_append, List.cons_append, firstDigitRun, hdd.1, if_pos]
      rw [List.append_eq, takeWhile_append_all Char.isDigit t b hdd.2 hb]
  | cons x a ih =>
    simp only [List.all_cons, Bool.and_eq_true] at ha
    have hx : x.isDigit = false := by
      cases h : x.isDigit with
      | true => rw [h] at ha; simp at ha
      | false => rfl
    simp only [List.cons_append, firstDigitRun, hx]
    simp only [Bool.false_eq_true, if_false]
    exact ih ha.2

theorem firstDigitRun_none (l : List Char) (h : l.all (fun c => !c.isDigit) = true) :
    firstDigitRun l = none := by
  induction l with
  | nil => rfl
  | cons x t ih =>
    simp only [List.all_cons, Bool.and_eq_true] at h
    have hx : x.isDigit = false := by
      cases hc : x.isDigit with
      | true => rw [hc] at h; simp at h
      | false => rfl
    simp only [firstDigitRun, hx, Bool.false_eq_true, if_false]
    exact ih h.2

/-- C6: a raw string `count` normalizes to the integer given by its first run
of decimal digits (stated for an arbitrary digit-free prefix, non-empty digit
run, and remainder not starting with a digit), to `0` when the string has no
digit at all, and an absent count also defaults to `0`; in particular
`"approximately 50 pages"` yields `50` and `"many"` yields `0`. -/
theorem count_normalization :
    (∀ a d b : List Char,
      a.all (fun c => !c.isDigit) = true → d ≠ [] → d.all Char.isDigit = true →
      Option.all (fun c => !c.isDigit) b.head? = true →
      normalizeCount (.str ⟨a ++ d ++ b⟩) = (digitsToNat d : Int))
    ∧ (∀ s : String, s.data.all (fun c => !c.isDigit) = true →
        normalizeCount (.str s) = 0)
    ∧ normalizeCount (.str "approximately 50 pages") = 50
    ∧ normalizeCount (.str "many") = 0
    ∧ normalizeCount .absent = 0 := by
  refine ⟨?_, ?_, by decide, by decide, rfl⟩
  · intro a d b ha hd hdd hb
    simp only [normalizeCount]
    rw [firstDigitRun_append a d b ha hd hdd hb]
  · intro s hs
    simp only [normalizeCount]
    rw [firstDigitRun_none s.data hs]

/-- Witness for C6: the general digit-run statement applied at the
decomposition of `"approximately 50 pages"`. -/
theorem count_normalization_witness :
    normalizeCount (.str ⟨"approximately ".data ++ ['5', '0'] ++ " pages".data⟩)
      = (50 : Int) :=
  (count_normalization.1 "approximately ".data ['5', '0'] " pages".data
      (by decide) (by decide) (by decide) (by decide)).trans (by decide)

set_option maxRecDepth 4000 in
theorem similarity_product_pages :
    similarityScore "Product Pages" "Product Page" = 24 / 25 := by
  have ha : ("Product Pages".data.map Char.toLower) = "product pages".data := by decide
  have hb : ("Product Page".data.map Char.toLower) = "product page".data := by decide
  have hm : totalMatched ("product pages".data.length + "product page".data.length)
      "product pages".data "product page".data = 12 := by decide
  have hL : ("product pages".data.length + "product page".data.length : Nat) = 25 := by decide
  simp only [similarityScore, ha, hb]
  rw [if_neg (by decide), hm, hL]
  norm_num

/-- C1 counterexample: two raw clusters titled "Product Pages" and
"Product Page" have case-insensitive similarity ratio 24/25 > 0.8, yet the
cluster-identification operation returns them as two separate clusters with
their individual counts 3 and 2 — no cluster carries the summed count 5, so no
merged cluster exists for the pair. -/
theorem clusters_not_merged :
    (4 : ℚ) / 5 < similarityScore "Product Pages" "Product Page" ∧
    (identify_topical_clusters_process (some [rawProductPages, rawProductPage])).map
        (fun c => (c.title, c.count))
      = [("Product Pages", 3), ("Product Page", 2)] ∧
    ¬ ∃ c ∈ identify_topical_clusters_process (some [rawProductPages, rawProductPage]),
        c.count = 3 + 2 := by
  refine ⟨?_, by decide, by decide⟩
  rw [similarity_product_pages]
  norm_num

/-- C1 amended: the cluster-identification operation performs no fuzzy
merging — every raw cluster is normalized one-for-one, so a pair of raw
clusters whose titles exceed 0.8 similarity still yields two separate entries
(each with its own normalized count) and the output always has exactly as many
clusters as the input. -/
theorem similar_clusters_stay_separate (raw : List RawCluster) (c1 c2 : RawCluster)
    (h1 : c1 ∈ raw) (h2 : c2 ∈ raw)
    (hsim : (4 : ℚ) / 5 < similarityScore (c1.title.getD "Unnamed Cluster")
        (c2.title.getD "Unnamed Cluster")) :
    (identify_topical_clusters_process (some raw)).length = raw.length ∧
    normalizeCluster c1 ∈ identify_topical_clusters_process (some raw) ∧
    normalizeCluster c2 ∈ identify_topical_clusters_process (some raw) := by
  refine ⟨?_, ?_, ?_⟩
  · simp [identify_topical_clusters_process]
  · exact List.mem_map_of_mem normalizeCluster h1
  · exact List.mem_map_of_mem normalizeCluster h2

/-- Witness for the amended C1 at the concrete similar-titled pair. -/
theorem similar_clusters_stay_separate_witness :
    ((identify_topical_clusters_process (some [rawProductPages, rawProductPage])).length
      = ([rawProductPages, rawProductPage] : List RawCluster).length) ∧
    normalizeCluster rawProductPages
      ∈ identify_topical_clusters_process (some [rawProductPages, rawProductPage]) ∧
    normalizeCluster rawProductPage
      ∈ identify_topical_clusters_process (some [rawProductPages, rawProductPage]) :=
  similar_clusters_stay_separate [rawProductPages, rawProductPage]
    rawProductPages rawProductPage (by decide) (by decide)
    (by
      rw [show rawProductPages.title.getD "Unnamed Cluster" = "Product Pages" from rfl,
        show rawProductPage.title.getD "Unnamed Cluster" = "Product Page" from rfl,
        similarity_product_pages]
      norm_num)

theorem foldl_append_eq_join {α β : Type} (f : α → List β) (l : List α) :
    ∀ init : List β, l.foldl (fun acc e => acc ++ f e) init = init ++ (l.map f).flatten := by
  induction l with
  | nil => intro init; simp
  | cons x t ih =>
    intro init
    simp only [List.foldl_cons, List.map_cons, List.flatten]
    rw [ih (init ++ f x), List.append_assoc]

/-- C3: on a sitemap-index document, `parse_sitemap` resolves exactly the
first 3 index entries — the result is the concatenation, in entry order, of
the records contributed by those entries (an entry whose fetch fails is
skipped, not an error), and the outcome is unchanged by any modification of
the fetch behavior outside the locs of those first 3 entries, so a 4th or
later entry is never fetched. -/
theorem index_recursion_bounded (root : XMLElem)
    (fetchParse : String → Option (List URLRecord))
    (hidx : containsSub (splitNsTag root.tag).2.data "sitemapindex".data = true) :
    parse_sitemap root fetchParse
      = (((selectElements root (splitNsTag root.tag).1 "sitemap").take 3).map
          (indexChildRecords (splitNsTag root.tag).1 fetchParse)).flatten ∧
    ∀ g : String → Option (List URLRecord),
      (∀ e ∈ (selectElements root (splitNsTag root.tag).1 "sitemap").take 3,
        ∀ t ∈ lookupText e (splitNsTag root.tag).1 "loc", fetchParse t = g t) →
      parse_sitemap root fetchParse = parse_sitemap root g := by
  have hmain : ∀ h : String → Option (List URLRecord),
      parse_sitemap root h
        = (((selectElements root (splitNsTag root.tag).1 "sitemap").take 3).map
            (indexChildRecords (splitNsTag root.tag).1 h)).flatten := by
    intro h
    simp only [parse_sitemap, hidx, if_true]
    rw [foldl_append_eq_join]
    simp
  refine ⟨hmain fetchParse, ?_⟩
  intro g hag
  rw [hmain fetchParse, hmain g]
  congr 1
  apply List.map_congr_left
  intro e he
  unfold indexChildRecords
  cases hl : lookupText e (splitNsTag root.tag).1 "loc" with
  | none => rfl
  | some t =>
    by_cases ht : t = ""
    · simp [ht]
    · have hft := hag e he t (by simp [hl])
      simp [ht, hft]

/-- Witness for C3 at a concrete four-entry sitemap index. -/
theorem index_recursion_bounded_witness :
    parse_sitemap sampleIndexRoot sampleFetch
      = (((selectElements sampleIndexRoot (splitNsTag sampleIndexRoot.tag).1
            "sitemap").take 3).map
          (indexChildRecords (splitNsTag sampleIndexRoot.tag).1 sampleFetch)).flatten ∧
    ∀ g : String → Option (List URLRecord),
      (∀ e ∈ (selectElements sampleIndexRoot (splitNsTag sampleIndexRoot.tag).1
          "sitemap").take 3,
        ∀ t ∈ lookupText e (splitNsTag sampleIndexRoot.tag).1 "loc",
          sampleFetch t = g t) →
      parse_sitemap sampleIndexRoot sampleFetch = parse_sitemap sampleIndexRoot g :=
  index_recursion_bounded sampleIndexRoot sampleFetch (by decide)

/-- C7: a URL-set document none of whose URL elements yields a truthy `loc`
parses to the empty record list — entries without `loc` are skipped rather
than raising, leaving the fatality of zero usable records to the caller. -/
theorem urlset_without_locs_empty (root : XMLElem)
    (fetchParse : String → Option (List URLRecord))
    (hnotidx : containsSub (splitNsTag root.tag).2.data "sitemapindex".data = false)
    (hnoloc : ∀ e ∈ selectElements root (splitNsTag root.tag).1 "url",
      (lookupText e (splitNsTag root.tag).1 "loc").getD "" = "") :
    parse_sitemap root fetchParse = [] := by
  simp only [parse_sitemap, hnotidx, Bool.false_eq_true, if_false]
  rw [List.filterMap_eq_nil_iff]
  intro e he
  unfold parseUrlElement
  cases hl : lookupText e (splitNsTag root.tag).1 "loc" with
  | none => rfl
  | some t =>
    have ht : t = "" := by
      have := hnoloc e he
      rw [hl] at this
      simpa using this
    simp [ht]

/-- Witness for C7 at a concrete URL set with three loc-less elements. -/
theorem urlset_without_locs_empty_witness :
    parse_sitemap sampleUrlSetRoot sampleFetch = [] :=
  urlset_without_locs_empty sampleUrlSetRoot sampleFetch (by decide) (by decide)

theorem occursAt_append_left (p r pat : List Char) (i : Nat)
    (h : i + pat.length ≤ p.length) :
    occursAt (p ++ r) pat i = occursAt p pat i := by
  unfold occursAt
  have hip : i ≤ p.length := by omega
  have hdrop : (p ++ r).drop i = p.drop i ++ r := by
    rw [List.drop_append_eq_append_drop, Nat.sub_eq_zero_of_le hip, List.drop_zero]
  rw [hdrop]
  have hlen : pat.length ≤ (p.drop i).length := by
    rw [List.length_drop]
    omega
  rw [List.take_append_of_le_length hlen]

theorem pyFindFromAux_ge (hay pat : List Char) (fuel : Nat) :
    ∀ start m : Nat, pyFindFromAux hay pat start fuel = some m → start ≤ m := by
  induction fuel with
  | zero => intro start m h; simp [pyFindFromAux] at h
  | succ n ih =>
    intro start m h
    unfold pyFindFromAux at h
    cases hocc : occursAt hay pat start with
    | true =>
      rw [hocc] at h
      simp at h
      omega
    | false =>
      rw [hocc] at h
      simp only [Bool.false_eq_true, if_false] at h
      have := ih (start + 1) m h
      omega

theorem pyFindFromAux_mono (hay pat : List Char) (fuel : Nat) :
    ∀ fuel' start m : Nat, fuel ≤ fuel' →
      pyFindFromAux hay pat start fuel = some m →
      pyFindFromAux hay pat start fuel' = some m := by
  induction fuel with
  | zero => intro fuel' start m _ h; simp [pyFindFromAux] at h
  | succ n ih =>
    intro fuel' start m hle h
    cases fuel' with
    | zero => omega
    | succ n' =>
      unfold pyFindFromAux at h ⊢
      by_cases hocc : occursAt hay pat start = true
      · rw [if_pos hocc] at h
        rw [if_pos hocc]
        exact h
      · rw [if_neg hocc] at h
        rw [if_neg hocc]
        exact ih n' (start + 1) m (by omega) h

theorem pyFindFromAux_append (p r pat : List Char) (fuel : Nat) :
    ∀ start m : Nat, pyFindFromAux p pat start fuel = some m →
      m + pat.length ≤ p.length →
      pyFindFromAux (p ++ r) pat start fuel = some m := by
  induction fuel with
  | zero => intro start m h _; simp [pyFindFromAux] at h
  | succ n ih =>
    intro start m h hm
    unfold pyFindFromAux at h ⊢
    cases hocc : occursAt p pat start with
    | true =>
      rw [hocc] at h
      simp at h
      subst h
      rw [occursAt_append_left p r pat start hm, hocc]
      simp
    | false =>
      rw [hocc] at h
      simp only [Bool.false_eq_true, if_false] at h
      have hge : start + 1 ≤ m := pyFindFromAux_ge p pat n (start + 1) m h
      rw [occursAt_append_left p r pat start (by omega), hocc]
      simp only [Bool.false_eq_true, if_false]
      exact ih (start + 1) m h hm

theorem pyFindFrom_append (p r pat : List Char) (start m : Nat)
    (h : pyFindFrom p pat start = some m) (hm : m + pat.length ≤ p.length) :
    pyFindFrom (p ++ r) pat start = some m := by
  unfold pyFindFrom at h ⊢
  have h1 := pyFindFromAux_append p r pat (p.length + 1 - start) start m h hm
  apply pyFindFromAux_mono (p ++ r) pat (p.length + 1 - start) _ start m _ h1
  rw [List.length_append]
  omega

/-- C8 counterexample: an input with three XML declarations still contains two
of them after the cleanup — the cleanup removes only the first declaration
found after the first one, not every later declaration, so a document preceded
by two or more duplicate declarations does not become well-formed. -/
theorem xml_decl_cleanup_counterexample :
    countOccurrences (stdDecl ++ stdDecl ++ stdDecl ++ "<urlset></urlset>".data)
        xmlDeclMark = 3 ∧
    countOccurrences
        (cleanXmlDecls (stdDecl ++ stdDecl ++ stdDecl ++ "<urlset></urlset>".data))
        xmlDeclMark = 2 := by
  constructor
  · decide
  · decide

/-- C8 amended: the cleanup strips exactly the second XML declaration (and
anything between the first declaration's end and the second's start): for a
body preceded by one duplicated declaration the duplicate is removed, whatever
the body is, so that case parses; with more duplicates, later declarations
survive (see the counterexample). -/
theorem xml_decl_cleanup_strips_second (b : List Char) :
    cleanXmlDecls (stdDecl ++ stdDecl ++ b) = stdDecl ++ b := by
  have hb1 : pyFindFrom (stdDecl ++ stdDecl ++ b) xmlDeclMark 0 = some 0 := by
    rw [List.append_assoc]
    exact pyFindFrom_append stdDecl (stdDecl ++ b) xmlDeclMark 0 0 (by decide) (by decide)
  have hb2 : pyFindFrom (stdDecl ++ stdDecl ++ b) declCloseMark 0 = some 19 := by
    rw [List.append_assoc]
    exact pyFindFrom_append stdDecl (stdDecl ++ b) declCloseMark 0 19 (by decide) (by decide)
  have hb3 : pyFindFrom (stdDecl ++ stdDecl ++ b) xmlDeclMark 21 = some 21 :=
    pyFindFrom_append (stdDecl ++ stdDecl) b xmlDeclMark 21 21 (by decide) (by decide)
  have hdrop21 : (stdDecl ++ stdDecl ++ b).drop 21 = stdDecl ++ b := by
    rw [List.append_assoc, show (21 : Nat) = stdDecl.length from rfl]
    exact List.drop_left stdDecl (stdDecl ++ b)
  have hb4 : pyFindFrom ((stdDecl ++ stdDecl ++ b).drop 21) declCloseMark 0 = some 19 := by
    rw [hdrop21]
    exact pyFindFrom_append stdDecl b declCloseMark 0 19 (by decide) (by decide)
  have htake21 : (stdDecl ++ stdDecl ++ b).take 21 = stdDecl := by
    rw [List.append_assoc, show (21 : Nat) = stdDecl.length from rfl]
    exact List.take_left stdDecl (stdDecl ++ b)
  have hdrop42 : (stdDecl ++ stdDecl ++ b).drop 42 = b := by
    rw [show (42 : Nat) = (stdDecl ++ stdDecl).length from rfl]
    exact List.drop_left (stdDecl ++ stdDecl) b
  have hc1 : containsSub (stdDecl ++ stdDecl ++ b) xmlDeclMark = true := by
    unfold containsSub
    rw [hb1]
    rfl
  have hc2 : containsSub (stdDecl ++ stdDecl ++ b) declCloseMark = true := by
    unfold containsSub
    rw [hb2]
    rfl
  unfold cleanXmlDecls
  rw [if_pos ⟨hc1, hc2⟩]
  simp only [pyFindInt, hb2, hb3, hb4]
  rw [show (((19 : Nat) : Int) + 2).toNat = 21 from rfl]
  rw [hb3]
  simp only [gt_iff_lt, Nat.lt_irrefl]
  rw [if_pos (by norm_num : (0 : Nat) < 21)]
  rw [hb4]
  rw [show (((21 : Nat) : Int) + ((19 : Nat) : Int) + 2).toNat = 42 from rfl]
  rw [htake21, hdrop42]

end SitemapSage
